import Mathlib

/-!
Verification of the power-balance computation of the boat power usage
calculator (`src/boat_power_calculator.py`). The engine arithmetic
(lines 184-237 of the source) is embedded over exact rationals; the
route-distance computation (line 147), which the source performs on
floating-point coordinates with a square root, is embedded over the
reals. Device add/remove session-state actions (lines 163-178) are
embedded as list operations.
-/

namespace BoatPower

/-- Engine types offered by the selectbox at line 93 of the source. -/
inductive EngineType where
  | Electric
  | Diesel
  | Gasoline
deriving DecidableEq

/-- Battery types offered by the selectbox at line 105 of the source. -/
inductive BatteryType where
  | LeadAcid
  | LithiumIon
  | NickelMetalHydride
deriving DecidableEq

/-- The fixed `battery_types` capacity table, lines 100-104 of the source. -/
def battery_types : BatteryType → ℚ
  | .LeadAcid => 50
  | .LithiumIon => 100
  | .NickelMetalHydride => 70

/-- A device as stored in `st.session_state.devices` (line 164):
a dict with a name and a power draw in watts. -/
structure Device where
  name : String
  power : ℚ
deriving DecidableEq

/-- Adding a device (line 164 of the source): a plain `append` to the
session-state list. -/
def addDevice (ds : List Device) (d : Device) : List Device :=
  ds ++ [d]

/-- Removing a device by name (line 177 of the source): a list
comprehension keeping every entry whose name differs from the target. -/
def removeDevice (ds : List Device) (n : String) : List Device :=
  ds.filter (fun d => d.name ≠ n)

/-- `efficiency_factor = 0.85`, line 184 of the source. -/
def efficiency_factor : ℚ := 85 / 100

/-- `resistance_factor = 1 + wind_speed * 0.01 + wave_height * 0.1`,
line 185 of the source. -/
def resistance_factor (wind_speed wave_height : ℚ) : ℚ :=
  1 + wind_speed * (1 / 100) + wave_height * (1 / 10)

/-- `power = speed * weight * 0.1 * resistance_factor / efficiency_factor`,
line 186 of the source. -/
def power (speed weight wind_speed wave_height : ℚ) : ℚ :=
  speed * weight * (1 / 10) * resistance_factor wind_speed wave_height / efficiency_factor

/-- `total_power = power * duration`, line 187 of the source. -/
def total_power (speed weight wind_speed wave_height duration : ℚ) : ℚ :=
  power speed weight wind_speed wave_height * duration

/-- `total_device_power = sum(d.power for d in devices) * duration / 1000`,
line 190 of the source. -/
def total_device_power (devices : List Device) (duration : ℚ) : ℚ :=
  (devices.map Device.power).sum * duration / 1000

/-- `solar_contribution = solar_power * duration`, line 193 of the source. -/
def solar_contribution (solar_power duration : ℚ) : ℚ :=
  solar_power * duration

/-- `net_power_usage = total_power + total_device_power - solar_contribution`,
line 196 of the source. -/
def net_power_usage (speed weight wind_speed wave_height duration : ℚ)
    (devices : List Device) (solar_power : ℚ) : ℚ :=
  total_power speed weight wind_speed wave_height duration
    + total_device_power devices duration
    - solar_contribution solar_power duration

/-- Battery-life estimate: a finite number of hours or the
positive-infinity sentinel `float(inf)` the source uses. -/
inductive BatteryLife where
  | finite (hours : ℚ)
  | unbounded
deriving DecidableEq

/-- `battery_life_hours = capacity / net if net > 0 else float(inf)`,
line 199 of the source. -/
def battery_life_hours (capacity net : ℚ) : BatteryLife :=
  if net > 0 then .finite (capacity / net) else .unbounded

/-- The `fuel_price` dict lookup keyed by engine type,
lines 215-219 of the source. -/
def fuel_price (e : EngineType) (electricity_price diesel_price gasoline_price : ℚ) : ℚ :=
  match e with
  | .Electric => electricity_price
  | .Diesel => diesel_price
  | .Gasoline => gasoline_price

/-- The integer time axis `np.arange(0, int(duration) + 1)`,
line 236 of the source. -/
def time_points (duration : ℚ) : List ℕ :=
  List.range (duration.floor.toNat + 1)

/-- Outcome of the time-series step: either the table of
(hour, cumulative net usage, cumulative solar generated) rows, or the
ZeroDivisionError Python raises when `duration` is zero. -/
inductive SeriesResult where
  | ok (rows : List (ℚ × ℚ × ℚ))
  | zeroDivisionError
deriving DecidableEq

/-- The time-series step, lines 236-238 of the source:
`power_usage = net_power_usage / duration * time` and
`solar_power_generated = solar_power * time`. Python raises
ZeroDivisionError on `net_power_usage / duration` when `duration` is 0. -/
def time_series (net duration solar_power : ℚ) : SeriesResult :=
  if duration = 0 then .zeroDivisionError
  else .ok ((time_points duration).map
    (fun t => ((t : ℚ), net / duration * (t : ℚ), solar_power * (t : ℚ))))

/-- A latitude/longitude pair as captured by the map click handler
(lines 152-156 of the source). -/
structure Point where
  lat : ℝ
  lng : ℝ

/-- The route distance computed at line 147 of the source:
`((lat1 - lat2)**2 + (lng1 - lng2)**2)**0.5`, a plain Euclidean
distance on raw coordinate values. -/
noncomputable def routeDistance (s e : Point) : ℝ :=
  Real.sqrt ((s.lat - e.lat) ^ 2 + (s.lng - e.lng) ^ 2)

/-- Degrees to radians. -/
noncomputable def deg2rad (d : ℝ) : ℝ := d * Real.pi / 180

/-- Modelled from the spec: the great-circle distance in nautical miles
between two latitude/longitude points, which the spec claims the route
distance is; missing from the source, which computes a Euclidean
distance instead. One nautical mile per minute of central angle, so
60 * (180/pi) nautical miles per radian of the spherical angle given by
the standard spherical law of cosines. -/
noncomputable def greatCircleNm (s e : Point) : ℝ :=
  60 * (180 / Real.pi) *
    Real.arccos (Real.sin (deg2rad s.lat) * Real.sin (deg2rad e.lat) +
      Real.cos (deg2rad s.lat) * Real.cos (deg2rad e.lat) *
        Real.cos (deg2rad s.lng - deg2rad e.lng))

/-- The full input state the Results tab reads: sliders and number
inputs of tab 1, the session-state device list of tab 3, the price
inputs of tab 4, and the session-state route points of tab 2. -/
structure Inputs where
  speed : ℚ
  weight : ℚ
  duration : ℚ
  engine_type : EngineType
  battery_capacity : ℚ
  solar_power : ℚ
  battery_type : BatteryType
  wind_speed : ℚ
  wave_height : ℚ
  devices : List Device
  electricity_price : ℚ
  diesel_price : ℚ
  gasoline_price : ℚ
  start_location : Option Point
  end_location : Option Point

/-- The scalar results computed in the Results tab,
lines 184-233 of the source. -/
structure Result where
  power : ℚ
  total_power : ℚ
  total_device_power : ℚ
  solar_contribution : ℚ
  net_power_usage : ℚ
  battery_life : BatteryLife
  overconsumption : Bool
  fuel_price : ℚ
  total_cost : ℚ
deriving DecidableEq

/-- The engine computation of the Results tab, lines 184-233 of the
source, as one pure function of the input state. The battery capacity
the source uses is `selected_battery_capacity` from the fixed table
(line 106); the `battery_capacity` number input of line 94 and the
route points are read nowhere in this computation. -/
def compute (i : Inputs) : Result :=
  let p := power i.speed i.weight i.wind_speed i.wave_height
  let tp := p * i.duration
  let tdp := total_device_power i.devices i.duration
  let sc := solar_contribution i.solar_power i.duration
  let net := tp + tdp - sc
  let cap := battery_types i.battery_type
  let fp := fuel_price i.engine_type i.electricity_price i.diesel_price i.gasoline_price
  { power := p
    total_power := tp
    total_device_power := tdp
    solar_contribution := sc
    net_power_usage := net
    battery_life := battery_life_hours cap net
    overconsumption := decide (tdp > cap + sc)
    fuel_price := fp
    total_cost := net * fp }

/-- The Example 1 input of the spec: speed 10, weight 10, duration 1,
wind 10, wave 1, solar 1, Lead-Acid battery, no devices, Electric
engine, electricity price 0.12. -/
def exampleInputs : Inputs :=
  { speed := 10
    weight := 10
    duration := 1
    engine_type := .Electric
    battery_capacity := 50
    solar_power := 1
    battery_type := .LeadAcid
    wind_speed := 10
    wave_height := 1
    devices := []
    electricity_price := 12 / 100
    diesel_price := 12 / 10
    gasoline_price := 1
    start_location := none
    end_location := none }

/-- An input state where the directly entered battery capacity (999)
differs from the table capacity of the chosen Lead-Acid battery (50),
with one 1000 W device for one hour and no propulsion or solar, so the
net usage is exactly 1 kWh. -/
def overrideInputs : Inputs :=
  { exampleInputs with
    battery_capacity := 999
    speed := 0
    weight := 0
    solar_power := 0
    devices := [⟨"Heater", 1000⟩] }

theorem power_eq (s w ws wh : ℚ) :
    power s w ws wh = s * w * (1 + ws * (1 / 100) + wh * (1 / 10)) * (2 / 17) := by
  unfold power resistance_factor efficiency_factor
  ring

/-- Claim C1: for every valid (non-negative) input, the engine computes
`power_required_kW = speed * weight * 0.1 * (1 + wind_speed * 0.01 +
wave_height * 0.1) / 0.85`; at speed 10, weight 10, wind 10, wave 1 the
resistance factor is 1.2 = 6/5 and the power required is
10*10*0.1*1.2/0.85 = 240/17 = 14.1176... kW. -/
theorem power_formula_and_example (s w ws wh : ℚ)
    (hs : 0 ≤ s) (hw : 0 ≤ w) (hws : 0 ≤ ws) (hwh : 0 ≤ wh) :
    power s w ws wh = s * w * (1 / 10) * (1 + ws * (1 / 100) + wh * (1 / 10)) / (85 / 100) ∧
    resistance_factor 10 1 = 6 / 5 ∧
    power 10 10 10 1 = 240 / 17 := by
  refine ⟨rfl, by norm_num [resistance_factor], ?_⟩
  norm_num [power, resistance_factor, efficiency_factor]

/-- Witness for C1 at the concrete inputs 3, 4, 5, 6. -/
theorem power_formula_and_example_witness :
    power 3 4 5 6 = 3 * 4 * (1 / 10) * (1 + 5 * (1 / 100) + 6 * (1 / 10)) / (85 / 100) ∧
    resistance_factor 10 1 = 6 / 5 ∧
    power 10 10 10 1 = 240 / 17 :=
  power_formula_and_example 3 4 5 6 (by norm_num) (by norm_num) (by norm_num) (by norm_num)

/-- Claim C2: battery life equals capacity divided by net energy when the
net energy is positive, and is the unbounded sentinel whenever the net
energy is not positive; the computation is total, never an error. -/
theorem battery_life_total_spec (capacity net : ℚ) :
    (net > 0 → battery_life_hours capacity net = BatteryLife.finite (capacity / net)) ∧
    (net ≤ 0 → battery_life_hours capacity net = BatteryLife.unbounded) := by
  constructor
  · intro h
    simp [battery_life_hours, h]
  · intro h
    simp [battery_life_hours, not_lt.mpr h]

/-- Witness for C2 on both sides of the boundary: capacity 50 with net 2
gives 25 hours, and with net -1 gives the unbounded sentinel. -/
theorem battery_life_total_spec_witness :
    battery_life_hours 50 2 = BatteryLife.finite 25 ∧
    battery_life_hours 50 (-1) = BatteryLife.unbounded := by
  constructor
  · rw [(battery_life_total_spec 50 2).1 (by norm_num)]
    norm_num
  · exact (battery_life_total_spec 50 (-1)).2 (by norm_num)

/-- Claim C3 names a requirement the source violates: at duration 0 the
time-series step `net_power_usage / duration * time` (line 237) divides
by zero, so Python raises ZeroDivisionError instead of producing the
single zero-valued point. At the failing input (Example-1 parameters
with duration 0) the net usage is 0 and the series step is the error. -/
theorem time_series_zero_duration_raises :
    net_power_usage 10 10 10 1 0 [] 1 = 0 ∧
    time_series (net_power_usage 10 10 10 1 0 [] 1) 0 1 = SeriesResult.zeroDivisionError := by
  constructor
  · norm_num [net_power_usage, total_power, total_device_power, solar_contribution]
  · simp [time_series]

/-- Claim C4 counterexample: the source's route distance is the plain
Euclidean distance on raw coordinates, not the great-circle distance in
nautical miles — from (0,0) to (0,90) it returns 90 while the
great-circle distance is 5400 nautical miles — and the engine's total
power uses the entered duration (here 2 h), not distance/speed (9 h). -/
theorem route_distance_not_great_circle_cex :
    routeDistance ⟨0, 0⟩ ⟨0, 90⟩ = 90 ∧
    greatCircleNm ⟨0, 0⟩ ⟨0, 90⟩ = 5400 ∧
    routeDistance ⟨0, 0⟩ ⟨0, 90⟩ ≠ greatCircleNm ⟨0, 0⟩ ⟨0, 90⟩ ∧
    total_power 10 10 10 1 2 ≠ power 10 10 10 1 * ((90 : ℚ) / 10) := by
  have hπ : Real.pi ≠ 0 := Real.pi_ne_zero
  have h1 : routeDistance ⟨0, 0⟩ ⟨0, 90⟩ = 90 := by
    show Real.sqrt (((0 : ℝ) - 0) ^ 2 + ((0 : ℝ) - 90) ^ 2) = 90
    rw [show ((0 : ℝ) - 0) ^ 2 + ((0 : ℝ) - 90) ^ 2 = 90 ^ 2 by norm_num]
    exact Real.sqrt_sq (by norm_num)
  have h2 : greatCircleNm ⟨0, 0⟩ ⟨0, 90⟩ = 5400 := by
    show 60 * (180 / Real.pi) *
      Real.arccos (Real.sin (deg2rad 0) * Real.sin (deg2rad 0) +
        Real.cos (deg2rad 0) * Real.cos (deg2rad 0) *
          Real.cos (deg2rad 0 - deg2rad 90)) = 5400
    have e0 : deg2rad 0 = 0 := by
      unfold deg2rad
      ring
    have e9 : deg2rad 0 - deg2rad 90 = -(Real.pi / 2) := by
      unfold deg2rad
      ring
    rw [e9, e0, Real.sin_zero, Real.cos_zero, Real.cos_neg, Real.cos_pi_div_two]
    rw [show (0 : ℝ) * 0 + 1 * 1 * 0 = 0 by norm_num, Real.arccos_zero]
    field_simp
    ring
  refine ⟨h1, h2, ?_, ?_⟩
  · rw [h1, h2]
    norm_num
  · norm_num [total_power, power, resistance_factor, efficiency_factor]

/-- Claim C4 amended: the engine result is independent of the route
points — the entered duration is never overridden — and the total power
is always `power * duration`; the displayed distance is the Euclidean
value on raw coordinates (established concretely above). -/
theorem route_ignored_duration_not_overridden (i : Inputs) (s1 e1 s2 e2 : Option Point) :
    compute { i with start_location := s1, end_location := e1 } =
      compute { i with start_location := s2, end_location := e2 } ∧
    (compute i).total_power = (compute i).power * i.duration :=
  ⟨rfl, rfl⟩

/-- Claim C5: the total cost is the net energy times the single price
selected by the engine type, and changing the two non-selected prices
leaves the entire result unchanged. -/
theorem total_cost_selected_price_only (i : Inputs) :
    (compute i).total_cost = (compute i).net_power_usage *
      fuel_price i.engine_type i.electricity_price i.diesel_price i.gasoline_price ∧
    (∀ d g, i.engine_type = EngineType.Electric →
      compute { i with diesel_price := d, gasoline_price := g } = compute i) ∧
    (∀ e g, i.engine_type = EngineType.Diesel →
      compute { i with electricity_price := e, gasoline_price := g } = compute i) ∧
    (∀ e d, i.engine_type = EngineType.Gasoline →
      compute { i with electricity_price := e, diesel_price := d } = compute i) := by
  refine ⟨rfl, ?_, ?_, ?_⟩ <;> intro a b h <;> simp [compute, fuel_price, h]

/-- Witness for C5 at the Example-1 input (Electric engine): the diesel
and gasoline prices may change arbitrarily without affecting the result. -/
theorem total_cost_selected_price_only_witness :
    (compute exampleInputs).total_cost = (compute exampleInputs).net_power_usage *
      fuel_price exampleInputs.engine_type exampleInputs.electricity_price
        exampleInputs.diesel_price exampleInputs.gasoline_price ∧
    compute { exampleInputs with diesel_price := 5, gasoline_price := 7 } =
      compute exampleInputs :=
  ⟨(total_cost_selected_price_only exampleInputs).1,
   (total_cost_selected_price_only exampleInputs).2.1 5 7 rfl⟩

/-- Claim C6: for non-negative speed, weight, wind speed and wave height
the power required is non-negative and monotonically non-decreasing in
each of the four arguments independently. -/
theorem power_nonneg_monotone (s w ws wh : ℚ)
    (hs : 0 ≤ s) (hw : 0 ≤ w) (hws : 0 ≤ ws) (hwh : 0 ≤ wh) :
    0 ≤ power s w ws wh ∧
    (∀ s2, s ≤ s2 → power s w ws wh ≤ power s2 w ws wh) ∧
    (∀ w2, w ≤ w2 → power s w ws wh ≤ power s w2 ws wh) ∧
    (∀ ws2, ws ≤ ws2 → power s w ws wh ≤ power s w ws2 wh) ∧
    (∀ wh2, wh ≤ wh2 → power s w ws wh ≤ power s w ws wh2) := by
  have hR : 0 ≤ 1 + ws * (1 / 100) + wh * (1 / 10) := by linarith
  refine ⟨?_, ?_, ?_, ?_, ?_⟩
  · rw [power_eq]
    exact mul_nonneg (mul_nonneg (mul_nonneg hs hw) hR) (by norm_num)
  · intro s2 h
    rw [power_eq, power_eq]
    nlinarith [mul_nonneg (mul_nonneg (show (0 : ℚ) ≤ s2 - s by linarith) hw) hR]
  · intro w2 h
    rw [power_eq, power_eq]
    nlinarith [mul_nonneg (mul_nonneg (show (0 : ℚ) ≤ w2 - w by linarith) hs) hR]
  · intro ws2 h
    rw [power_eq, power_eq]
    nlinarith [mul_nonneg (mul_nonneg hs hw) (show (0 : ℚ) ≤ ws2 - ws by linarith)]
  · intro wh2 h
    rw [power_eq, power_eq]
    nlinarith [mul_nonneg (mul_nonneg hs hw) (show (0 : ℚ) ≤ wh2 - wh by linarith)]

/-- Witness for C6 at speed 10, weight 10, wind 10, wave 1: power is
non-negative and does not decrease when the speed rises to 12. -/
theorem power_nonneg_monotone_witness :
    0 ≤ power 10 10 10 1 ∧ power 10 10 10 1 ≤ power 12 10 10 1 := by
  have h := power_nonneg_monotone 10 10 10 1
    (by norm_num) (by norm_num) (by norm_num) (by norm_num)
  exact ⟨h.1, h.2.1 12 (by norm_num)⟩

/-- Claim C7: with all other inputs held fixed, the net energy is linear
in the duration: `net(d) = d * net(1)` for every non-negative duration. -/
theorem net_energy_linear_in_duration (s w ws wh solar : ℚ) (devices : List Device)
    (d : ℚ) (hd : 0 ≤ d) :
    net_power_usage s w ws wh d devices solar =
      d * net_power_usage s w ws wh 1 devices solar := by
  unfold net_power_usage total_power total_device_power solar_contribution
  ring

/-- Witness for C7 at duration 2 with the Example-1 parameters. -/
theorem net_energy_linear_in_duration_witness :
    net_power_usage 10 10 10 1 2 [] 1 = 2 * net_power_usage 10 10 10 1 1 [] 1 :=
  net_energy_linear_in_duration 10 10 10 1 1 [] 2 (by norm_num)

/-- Claim C8 counterexample: when a device named Fridge already exists,
adding a second Fridge and then removing by that name deletes both
entries, so the remaining set is empty and not unordered-equal to the
one-element set that preceded the add. -/
theorem remove_after_add_duplicate_cex :
    removeDevice (addDevice [⟨"Fridge", 100⟩] ⟨"Fridge", 50⟩) "Fridge" = [] ∧
    ¬ (removeDevice (addDevice [⟨"Fridge", 100⟩] ⟨"Fridge", 50⟩) "Fridge").Perm
        [(⟨"Fridge", 100⟩ : Device)] := by
  have h : removeDevice (addDevice [⟨"Fridge", 100⟩] ⟨"Fridge", 50⟩) "Fridge" =
      ([] : List Device) := by decide
  refine ⟨h, ?_⟩
  rw [h]
  intro hp
  simpa using hp.length_eq

/-- Claim C8 amended: after a remove targeting a name, no entry with
that name remains; and adding a device whose name is fresh (absent from
the prior set) and then removing it by name restores exactly the prior
set — when the name was already present, the remove also deletes the
pre-existing entries. -/
theorem remove_clears_name_add_remove_restores (ds : List Device) (n : String) (d : Device) :
    (∀ x ∈ removeDevice ds n, x.name ≠ n) ∧
    ((∀ x ∈ ds, x.name ≠ d.name) → removeDevice (addDevice ds d) d.name = ds) := by
  constructor
  · intro x hx
    have hmem := List.mem_filter.mp hx
    simpa using hmem.2
  · intro h
    unfold removeDevice addDevice
    rw [List.filter_append]
    have h1 : ds.filter (fun x => x.name ≠ d.name) = ds := by
      rw [List.filter_eq_self]
      intro a ha
      simpa using h a ha
    have h2 : [d].filter (fun x => x.name ≠ d.name) = [] := by simp
    rw [h1, h2, List.append_nil]

/-- Witness for C8 amended: removing Fridge from a set holding only a
Light leaves no Fridge entry, and adding then removing a Fridge restores
the original one-element set. -/
theorem remove_clears_name_add_remove_restores_witness :
    (∀ x ∈ removeDevice [⟨"Light", 10⟩] "Fridge", x.name ≠ "Fridge") ∧
    removeDevice (addDevice [⟨"Light", 10⟩] ⟨"Fridge", 100⟩) "Fridge" = [⟨"Light", 10⟩] :=
  ⟨(remove_clears_name_add_remove_restores [⟨"Light", 10⟩] "Fridge" ⟨"Fridge", 100⟩).1,
   (remove_clears_name_add_remove_restores [⟨"Light", 10⟩] "Fridge" ⟨"Fridge", 100⟩).2
     (by decide)⟩

/-- Claim C9 counterexample: adding a device named Fridge twice yields a
set with two entries of that name — the second add appends rather than
replacing, so names are not unique and last-add wins does not hold. -/
theorem add_duplicate_name_cex :
    addDevice (addDevice [] ⟨"Fridge", 100⟩) ⟨"Fridge", 50⟩ =
      [⟨"Fridge", 100⟩, ⟨"Fridge", 50⟩] ∧
    ((addDevice (addDevice [] ⟨"Fridge", 100⟩) ⟨"Fridge", 50⟩).filter
      (fun d => d.name = "Fridge")).length = 2 := by
  constructor <;> decide

/-- Claim C9 amended: an add always appends the new device at the end of
the list, keeping every existing entry in place — an existing entry with
the same name is not replaced, so duplicates survive an add. -/
theorem add_appends_never_replaces (ds : List Device) (d : Device) :
    addDevice ds d = ds ++ [d] ∧
    (addDevice ds d).take ds.length = ds ∧
    (addDevice ds d).length = ds.length + 1 := by
  refine ⟨rfl, ?_, by simp [addDevice]⟩
  simp [addDevice, List.take_left]

/-- Claim C10 counterexample: with the directly entered battery capacity
999 supplied and Lead-Acid selected, a net usage of exactly 1 kWh gives
a battery life of 50 hours — the fixed-table value — never 999: the
entered override is ignored by the engine. -/
theorem battery_override_ignored_cex :
    overrideInputs.battery_capacity = 999 ∧
    (compute overrideInputs).net_power_usage = 1 ∧
    (compute overrideInputs).battery_life = BatteryLife.finite 50 ∧
    BatteryLife.finite (50 : ℚ) ≠ BatteryLife.finite overrideInputs.battery_capacity := by
  have hnet : (compute overrideInputs).net_power_usage = 1 := by
    norm_num [compute, overrideInputs, exampleInputs, power, resistance_factor,
      efficiency_factor, total_device_power, solar_contribution]
  have hlife : (compute overrideInputs).battery_life = BatteryLife.finite 50 := by
    norm_num [compute, overrideInputs, exampleInputs, power, resistance_factor,
      efficiency_factor, total_device_power, solar_contribution, battery_life_hours,
      battery_types]
  refine ⟨rfl, hnet, hlife, ?_⟩
  norm_num [overrideInputs, exampleInputs]

/-- Claim C10 amended: the battery capacity the engine uses — in the
battery-life division and the overconsumption comparison — is always the
fixed-table value for the chosen battery type; the directly entered
capacity input never affects the result. -/
theorem battery_capacity_from_table_only (i : Inputs) (c : ℚ) :
    compute { i with battery_capacity := c } = compute i ∧
    (compute i).battery_life =
      battery_life_hours (battery_types i.battery_type) (compute i).net_power_usage :=
  ⟨rfl, rfl⟩

end BoatPower
